import Mathlib

/-!
Shallow embedding of the modman mod manager (src/modman/lib.py and
src/modman/main.py) and proofs about its dependency-resolution,
version-selection, uninstall, download-integrity and HTTP-retry logic.

Modelling conventions:
* Python dicts (JSON objects) become structures; `config["mods"]` (an
  insertion-ordered dict) becomes an association list with the usual
  insertion-ordered dict operations (`dget`, `dset`, `ddel`, `dvalues`).
* ISO-8601 `date_published` strings (compared lexicographically by Python,
  which is order-isomorphic to chronological order for the fixed format)
  become `Nat` timestamps.
* Raised exceptions become `Except Err` / an `Err` component of the result.
* Network calls become lookups in an explicit `Catalog` value.
-/

namespace Modman

/-- Python exceptions / aborts that the embedded code can raise. -/
inductive Err where
  | httpStatus      -- httpx.HTTPStatusError via raise_for_status / 404 lookups
  | connectFailed   -- RuntimeError "Failed to connect to Modrinth API"
  | aborted         -- click.Abort
  | valueError      -- ValueError (e.g. unpacking "a==b==c".split("=="))
  | keyError        -- KeyError on dict subscription
  | indexError      -- IndexError on list subscription
  | runtimeError    -- RuntimeError ("File hash does not match")
  | exhausted       -- artefact of the finite response-stream model
deriving Repr, DecidableEq

/-- One entry of a version's `dependencies` list. -/
structure Dependency where
  project_id : String
  version_id : Option String
  dependency_type : String   -- "required" | "optional" | "incompatible"
deriving Repr, DecidableEq

/-- One entry of a version's `files` list. -/
structure ModFile where
  filename : String
  url : String
  primary : Bool             -- file.get("primary", False)
  sha512 : Nat               -- file["hashes"]["sha512"], hex digest modelled as Nat
deriving Repr, DecidableEq

/-- A Modrinth version record (the fields the embedded code reads). -/
structure Version where
  id : String
  project_id : String
  name : String
  version_number : String
  version_type : String      -- "release" | "beta" | "alpha"
  date_published : Nat
  game_versions : List String
  loaders : List String
  dependencies : List Dependency
  files : List ModFile
deriving Repr, DecidableEq

/-- A Modrinth project record (the fields the embedded code reads). -/
structure Project where
  id : String
  slug : String
  title : String
  server_side : String
deriving Repr, DecidableEq

/-- One value of the manifest's `mods` mapping: `{project snapshot, version snapshot}`. -/
structure ModEntry where
  project : Project
  version : Version
deriving Repr, DecidableEq

/-- The loaded `.modman.json` manifest (the fields the embedded code reads):
`config["modman"]["server"]["type"]`, `config["modman"]["server"]["version"]`
and the insertion-ordered dict `config["mods"]`. -/
structure Config where
  server_type : String
  server_version : String
  mods : List (String × ModEntry)
deriving Repr, DecidableEq

/-! ### Insertion-ordered dict operations (Python `dict`) -/

def dget {α : Type} (d : List (String × α)) (k : String) : Option α :=
  (d.find? (fun kv => kv.1 == k)).map (fun kv => kv.2)

def dmem {α : Type} (d : List (String × α)) (k : String) : Bool :=
  (dget d k).isSome

/-- `d[k] = v`: replace in place when the key exists, else append. -/
def dset {α : Type} (d : List (String × α)) (k : String) (v : α) : List (String × α) :=
  if dmem d k then d.map (fun kv => if kv.1 == k then (k, v) else kv) else d ++ [(k, v)]

/-- `del d[k]` (keys are unique in a Python dict). -/
def ddel {α : Type} (d : List (String × α)) (k : String) : List (String × α) :=
  d.filter (fun kv => kv.1 != k)

def dvalues {α : Type} (d : List (String × α)) : List α :=
  d.map (fun kv => kv.2)

def dkeys {α : Type} (d : List (String × α)) : List String :=
  d.map (fun kv => kv.1)

instance {ε α : Type} [DecidableEq ε] [DecidableEq α] : DecidableEq (Except ε α) :=
  fun x y =>
    match x, y with
    | .ok u, .ok v =>
      if h : u = v then .isTrue (by rw [h]) else .isFalse (by intro hc; cases hc; exact h rfl)
    | .error u, .error v =>
      if h : u = v then .isTrue (by rw [h]) else .isFalse (by intro hc; cases hc; exact h rfl)
    | .ok _, .error _ => .isFalse (by intro hc; cases hc)
    | .error _, .ok _ => .isFalse (by intro hc; cases hc)

/-- Python `s.split("==")` (left-to-right, non-overlapping), over the
character list. -/
def splitEqEqChars : List Char → List (List Char)
  | [] => [[]]
  | '=' :: '=' :: rest => [] :: splitEqEqChars rest
  | c :: rest =>
    match splitEqEqChars rest with
    | [] => [[c]]
    | h :: t => (c :: h) :: t

/-- Python `s.split("==")` on strings. -/
def pySplitEqEq (s : String) : List String :=
  (splitEqEqChars s.data).map (fun cs => String.mk cs)

/-! ### lib.py: `ModrinthAPI.pick_primary_file` -/

/-- `pick_primary_file(files)`: first file flagged primary, else `files[0]`
(which raises `IndexError` on an empty list). -/
def pick_primary_file (files : List ModFile) : Except Err ModFile :=
  match files.find? (fun f => f.primary) with
  | some f => .ok f
  | none =>
    match files with
    | [] => .error .indexError
    | f :: _ => .ok f

/-! ### lib.py: `ModrinthAPI.get_versions` (the pure filtering/sorting pipeline)

`result.sort(key=lambda v: v["date_published"], reverse=True)` is a stable
descending sort by `date_published`; `List.insertionSort` with the
date-greater-or-equal relation is also stable for ties, so it models it.
The remove-while-iterating-a-copy loops delete exactly the elements failing
the predicate while preserving order, i.e. they are `List.filter`. -/

def dateGe (a b : Version) : Prop := b.date_published ≤ a.date_published

instance : DecidableRel dateGe := fun _ _ => Nat.decLe _ _

instance : IsTotal Version dateGe :=
  ⟨fun a b => (Nat.le_total b.date_published a.date_published).elim Or.inl Or.inr⟩

instance : IsTrans Version dateGe :=
  ⟨fun _ _ _ hab hbc => Nat.le_trans hbc hab⟩

def sortDateDesc (l : List Version) : List Version :=
  l.insertionSort dateGe

/-- Stages 1-2 of `get_versions`: sort by recency, then drop versions not
supporting the requested game version / loader (each stage skipped when the
corresponding argument is `None`). -/
def platformFiltered (raw : List Version) (loader : Option String)
    (game_version : Option String) : List Version :=
  let result := sortDateDesc raw
  let result :=
    match game_version with
    | some gv => result.filter (fun v => gv ∈ v.game_versions)
    | none => result
  match loader with
  | some l => result.filter (fun v => l ∈ v.loaders)
  | none => result

/-- `get_versions(project_id, loader, game_version, release_only)` as a pure
function of the catalog's raw version list for the project. -/
def get_versions (raw : List Version) (loader : Option String)
    (game_version : Option String) (release_only : Bool) : List Version :=
  let result := platformFiltered raw loader game_version
  let result :=
    if release_only then
      let real_copy := result.filter (fun v => v.version_type == "release")
      if real_copy.isEmpty then result else real_copy
    else result
  sortDateDesc result

/-! ### lib.py: `ModrinthAPI.find_dependency_version_conflicts` -/

/-- A conflict record as built at lib.py:266-273. -/
structure Conflict where
  project_id : String
  conflict_project_id : String
  version_id : String
  conflict_version_id : String
deriving Repr, DecidableEq

/-- The body of the `for mod in config["mods"].values()` loop at lib.py:248. -/
def conflictsOfMod (project_id version_id : String) (mod : ModEntry) : List Conflict :=
  if mod.version.project_id != project_id then []
  else
    mod.version.dependencies.filterMap (fun dep =>
      if dep.project_id == project_id then
        match dep.version_id with
        | none => none          -- "no version specification, assuming it supports all"
        | some dv =>
          if dv != version_id then
            some ⟨project_id, mod.project.id, version_id, dv⟩
          else none
      else none)

def find_dependency_version_conflicts (project_id version_id : String)
    (config : Config) : List Conflict :=
  ((dvalues config.mods).map (conflictsOfMod project_id version_id)).flatten

/-! ### lib.py: `ModrinthAPI.get` (connection retry + 429 handling)

The network is modelled as the finite stream of outcomes of successive
`self.http.get` calls: `none` is an `httpx.ConnectError`, `some r` a
completed response. The rate-limit bookkeeping (a blocking sleep) has no
effect on which responses are produced and is omitted. An exhausted stream
yields the model-artefact error `.exhausted`; theorems only use streams
long enough to decide the call. -/

structure HttpResp where
  status : Nat
  body : Nat
deriving Repr, DecidableEq

/-- The `for i in range(5): try: ... except httpx.ConnectError: continue`
loop at lib.py:65-73: up to 5 attempts to obtain a completed response;
all five failing raises `RuntimeError("Failed to connect ...")`. -/
def tryConnect : Nat → List (Option HttpResp) →
    Except Err (HttpResp × List (Option HttpResp))
  | 0, _ => .error .connectFailed
  | _ + 1, [] => .error .exhausted
  | n + 1, o :: rest =>
    match o with
    | some r => .ok (r, rest)
    | none => tryConnect n rest

/-- `ModrinthAPI.get`, fuelled by the stream length (the Python code recurses
into itself on a 429 with no bound). Returns the response that was finally
returned to the caller together with the total number of completed HTTP
responses it consumed (1 + the number of 429-triggered re-issues). -/
def apiGetFuel : Nat → List (Option HttpResp) → Except Err (HttpResp × Nat)
  | 0, _ => .error .exhausted
  | fuel + 1, stream =>
    match tryConnect 5 stream with
    | .error e => .error e
    | .ok (r, rest) =>
      if r.status == 429 then
        -- lib.py:76-78: "Request was rate-limited, re-calling." — recursive self-call
        match apiGetFuel fuel rest with
        | .ok (r', n) => .ok (r', n + 1)
        | .error e => .error e
      else if 200 ≤ r.status ∧ r.status < 300 then .ok (r, 1)
      else .error .httpStatus   -- response.raise_for_status()

def apiGet (stream : List (Option HttpResp)) : Except Err (HttpResp × Nat) :=
  apiGetFuel stream.length stream

/-! ### lib.py: `ModrinthAPI.download_mod`

The cache directory and the destination mods directory are filename-keyed
stores of byte strings; `remote` gives the bytes the catalog serves for a
URL, `stale` models the `st_ctime + 1209600 < time.time()` check, and
`hashOf` models the sha512 digest of a byte string. -/

structure DlEnv where
  remote : String → List Nat
  hashOf : List Nat → Nat
  stale : String → Bool

structure DlState where
  cacheDir : List (String × List Nat)
  destDir : List (String × List Nat)
deriving Repr, DecidableEq

/-- The bytes that end up in the cache file for `file` after the
download-or-reuse step at lib.py:208-226. -/
def dl_bytes (env : DlEnv) (st : DlState) (file : ModFile) : List Nat :=
  match dget st.cacheDir file.filename with
  | none => env.remote file.url
  | some cached => if env.stale file.filename then env.remote file.url else cached

/-- `download_mod(version, directory)`: pick the primary file; download into
the cache unless a fresh cached copy exists; re-hash the cached bytes; on
mismatch unlink the cached copy and raise; otherwise copy into the
destination directory. -/
def download_mod (env : DlEnv) (st : DlState) (version : Version) :
    DlState × Except Err Unit :=
  match pick_primary_file version.files with
  | .error e => (st, .error e)
  | .ok file =>
    let bytes := dl_bytes env st file
    let st1 : DlState := { st with cacheDir := dset st.cacheDir file.filename bytes }
    if env.hashOf bytes != file.sha512 then
      -- lib.py:233-238: fs_file.unlink(True); raise RuntimeError("File hash does not match")
      ({ st1 with cacheDir := ddel st1.cacheDir file.filename }, .error .runtimeError)
    else
      ({ st1 with destDir := dset st1.destDir file.filename bytes }, .ok ())

/-! ### main.py: `load_config` and the end-of-command save

The filesystem is a finite map from paths (segment lists, `[]` being the
root) to manifest contents. `load_config` walks `[cwd, *cwd.parents]`
looking for `.modman.json`; the commands save with
`open(".modman.json", "w")`, i.e. relative to the *current* directory.
The two migration branches (absent `root`, absent `server.file`) read
fields our `Config` does not carry; the manifests in this development are
fully migrated, so `load_config` is embedded for such manifests. -/

abbrev FsPath := List String

structure FS where
  files : List (FsPath × Config)
deriving Repr, DecidableEq

def fsGet (fs : FS) (p : FsPath) : Option Config :=
  (fs.files.find? (fun e => e.1 == p)).map (fun e => e.2)

def fsSet (fs : FS) (p : FsPath) (c : Config) : FS :=
  if (fsGet fs p).isSome then
    ⟨fs.files.map (fun e => if e.1 == p then (p, c) else e)⟩
  else ⟨fs.files ++ [(p, c)]⟩

/-- `[cwd, *cwd.parents]` for a path given as segments. -/
def ancestors (p : FsPath) : List FsPath :=
  (List.range (p.length + 1)).map (fun i => p.take (p.length - i))

/-- The directory (from `[cwd, *cwd.parents]`) in which `load_config` finds
`.modman.json`, if any. -/
def findManifestDir (fs : FS) (cwd : FsPath) : Option FsPath :=
  (ancestors cwd).find? (fun d => (fsGet fs (d ++ [".modman.json"])).isSome)

/-- `load_config()` for an already-migrated manifest: the loaded data, or
`click.Abort` when no `.modman.json` exists in `cwd` or any parent. -/
def load_config (fs : FS) (cwd : FsPath) : Except Err Config :=
  match findManifestDir fs cwd with
  | none => .error .aborted
  | some d =>
    match fsGet fs (d ++ [".modman.json"]) with
    | none => .error .aborted   -- unreachable given findManifestDir
    | some data => .ok data

/-- The save at the end of install/update/uninstall
(`with open(".modman.json", "w") as fd: json.dump(config, fd, ...)`):
it writes `.modman.json` in the *current working directory*. -/
def save_config (fs : FS) (cwd : FsPath) (config : Config) : FS :=
  fsSet fs (cwd ++ [".modman.json"]) config

/-! ### main.py: `install_mod` (seed phase, dependency expansion, final config)

The remote catalog is a `Catalog` value: `getProject` is
`GET /project/{id-or-slug}` (`none` = 404), `interactive` is the outcome of
the `interactive_search` disambiguation (`none` = no result / interrupt,
either of which kills the run), `versionsRaw` is the raw version list of
`GET /project/{id}/version` (the code re-filters it locally, so server-side
filtering is subsumed), and `getVersionById` is
`GET /project/{pid}/version/{vid}` (`none` = 404, which raises). -/

structure Catalog where
  getProject : String → Option Project
  interactive : String → Option Project
  versionsRaw : String → List Version
  getVersionById : String → String → Option Version

structure InstallItem where
  mod : Project
  version : Version
deriving Repr, DecidableEq

/-- The logged warnings/skips the embedded claims need to observe. -/
inductive Warn where
  | alreadyInstalled (slug : String)
  | noVersions (title : String)
  | gameVersionMismatch (title : String)
  | loaderMismatch (title : String)
  | depOptionalSkipped (pid : String)
  | depNoVersions (title : String)
  | conflictsFound (cs : List Conflict)
deriving Repr, DecidableEq

/-- main.py:401-413: warn when the selected version does not list the
configured game version (the subsequent `continue` is commented out, so the
mod is still queued); warn *and skip* when it does not list the configured
loader. -/
def seedPlatformCheck (config : Config) (mod_info : Project)
    (version_info : Version) : Option InstallItem × List Warn :=
  let w1 : List Warn :=
    if config.server_version ∈ version_info.game_versions then []
    else [.gameVersionMismatch mod_info.title]
  if config.server_type ∈ version_info.loaders then
    (some ⟨mod_info, version_info⟩, w1)
  else
    (none, w1 ++ [.loaderMismatch mod_info.title])

/-- One iteration of the seed loop (main.py:352-413) for one requested mod
string. `none` in the first component = the mod was skipped (`continue`);
`Except.error` = an exception escaped and aborted the whole run. -/
def processSeed (api : Catalog) (config : Config) (reinstall : Bool)
    (modStr : String) : Except Err (Option InstallItem × List Warn) := do
  let (name, requested) ←
    match pySplitEqEq modStr with
    | [n] => Except.ok (n, "latest")
    | [n, v] => Except.ok (n, v)
    | _ => Except.error Err.valueError   -- `mod, version = mod.split("==")` unpack
  let mod_info ←
    match api.getProject name with
    | some p => Except.ok p
    | none =>
      -- 404 → interactive disambiguation loop (main.py:360-368); any failure
      -- inside it (no result, interrupt, failed re-fetch) escapes the loop
      match api.interactive name with
      | none => Except.error Err.aborted
      | some sp =>
        match api.getProject sp.slug with
        | none => Except.error Err.httpStatus
        | some p => Except.ok p
  if dmem config.mods mod_info.slug ∧ reinstall = false then
    Except.ok (none, [.alreadyInstalled mod_info.slug])
  else
    let requested :=
      if dmem config.mods mod_info.slug then
        match dget config.mods mod_info.slug with
        | some e => e.version.id
        | none => requested
      else requested
    if requested == "latest" then
      match get_versions (api.versionsRaw mod_info.id) (some config.server_type)
          (some config.server_version) true with
      | [] => Except.ok (none, [.noVersions mod_info.title])
      | v :: _ => Except.ok (seedPlatformCheck config mod_info v)
    else
      match api.getVersionById mod_info.id requested with
      | none => Except.error Err.httpStatus   -- raised inside get(), uncaught here
      | some v => Except.ok (seedPlatformCheck config mod_info v)

def collectSeeds (api : Catalog) (config : Config) (reinstall : Bool) :
    List String → Except Err (List InstallItem × List Warn)
  | [] => .ok ([], [])
  | m :: rest => do
    let (it, ws) ← processSeed api config reinstall m
    let (its, ws') ← collectSeeds api config reinstall rest
    Except.ok (it.toList ++ its, ws ++ ws')

/-- One iteration of the dependency loop (main.py:421-468) for one declared
dependency of one collected mod. A 404 on the dependency's project or on a
pinned dependency version is *not* caught here and aborts the run. -/
def processDep (api : Catalog) (config : Config) (optional_flag : Bool)
    (item : InstallItem) (dep : Dependency) :
    Except Err (Option InstallItem × List Warn × List Conflict) :=
  if dep.dependency_type == "optional" && !optional_flag then
    .ok (none, [.depOptionalSkipped dep.project_id], [])
  else
    match api.getProject dep.project_id with
    | none => .error .httpStatus   -- main.py:437, no try/except around it
    | some dependency =>
      let resolved : Except Err (Option Version × List Warn) :=
        match dep.version_id with
        | none =>
          match get_versions (api.versionsRaw dep.project_id)
              (some config.server_type) (some config.server_version) true with
          | [] => .ok (none, [.depNoVersions dependency.title])  -- log critical; continue
          | v :: _ => .ok (some v, [])
        | some vid =>
          match api.getVersionById dep.project_id vid with
          | none => .error .httpStatus   -- main.py:459, uncaught
          | some v => .ok (some v, [])
      match resolved with
      | .error e => .error e
      | .ok (none, ws) => .ok (none, ws, [])
      | .ok (some dv, ws) =>
        -- main.py:463-466: conflicts are computed for the *depending* mod's
        -- project id and version id, then only logged.
        let conflicts := find_dependency_version_conflicts item.mod.id item.version.id config
        let cw : List Warn := if conflicts.isEmpty then [] else [.conflictsFound conflicts]
        .ok (some ⟨dependency, dv⟩, ws ++ cw, conflicts)

def processDeps (api : Catalog) (config : Config) (optional_flag : Bool)
    (item : InstallItem) :
    List Dependency → Except Err (List InstallItem × List Warn × List Conflict)
  | [] => .ok ([], [], [])
  | d :: rest => do
    let (it, ws, cs) ← processDep api config optional_flag item d
    let (its, ws', cs') ← processDeps api config optional_flag item rest
    Except.ok (it.toList ++ its, ws ++ ws', cs ++ cs')

/-- The whole expansion phase (main.py:416-468): a single pass over the
*collected seed list* — dependencies are appended to the queue but never
themselves expanded. -/
def expandAll (api : Catalog) (config : Config) (optional_flag : Bool) :
    List InstallItem → Except Err (List InstallItem × List Warn × List Conflict)
  | [] => .ok ([], [], [])
  | i :: rest => do
    let (its, ws, cs) ← processDeps api config optional_flag i i.version.dependencies
    let (its', ws', cs') ← expandAll api config optional_flag rest
    Except.ok (its ++ its', ws ++ ws', cs ++ cs')

structure InstallResult where
  queue : List InstallItem
  warnings : List Warn
  conflicts : List Conflict
  config : Config
deriving Repr, DecidableEq

/-- `install_mod` up to (but excluding) artifact downloads and the save:
seed collection, dependency expansion, and the final-config fold
(`config["mods"][slug] = {project, version}` for every queue item). -/
def install_resolve (api : Catalog) (config : Config) (mods : List String)
    (reinstall optional_flag : Bool) : Except Err InstallResult := do
  let mods := if mods.isEmpty then dkeys config.mods else mods
  let (collected, ws1) ← collectSeeds api config reinstall mods
  let (deps, ws2, conflicts) ← expandAll api config optional_flag collected
  let queue := collected ++ deps
  let finalConfig := queue.foldl
    (fun c item => { c with mods := dset c.mods item.mod.slug ⟨item.mod, item.version⟩ })
    config
  Except.ok ⟨queue, ws1 ++ ws2, conflicts, finalConfig⟩

/-- The install command end to end on the manifest file: `load_config()`
(which may find `.modman.json` in a parent directory), resolution, then the
relative-path save at main.py:491-492. -/
def full_install (fs : FS) (cwd : FsPath) (api : Catalog) (mods : List String)
    (reinstall optional_flag : Bool) : Except Err (FS × InstallResult) := do
  let config ← load_config fs cwd
  let res ← install_resolve api config mods reinstall optional_flag
  Except.ok (save_config fs cwd res.config, res)

/-! ### main.py: `uninstall` -/

/-- The identifier table built at main.py:658-666: every entry is looked up
by project id, title, slug, primary-file filename, or manifest key. Building
it calls `pick_primary_file` on every entry, so it raises on any entry with
an empty `files` list. -/
def modIdentifiers : List (String × ModEntry) →
    Except Err (List (String × List String))
  | [] => .ok []
  | (key, mod) :: rest => do
    let pf ← pick_primary_file mod.version.files
    let others ← modIdentifiers rest
    Except.ok ((key, [mod.project.id, mod.project.title, mod.project.slug,
      pf.filename, key]) :: others)

/-- The nested `for other_mod in config["mods"].values(): for other_dependency
in ...` scan with its `break`/`else` ladder (main.py:688-694): true iff *some*
manifest entry (including the one being uninstalled, which is still present)
declares a dependency on `pid`. -/
def someOtherDepends (mods : List (String × ModEntry)) (pid : String) : Bool :=
  (dvalues mods).any (fun other =>
    other.version.dependencies.any (fun d => d.project_id == pid))

/-- The purge cascade (main.py:683-704) over the removed mod's declared
dependencies, threading the mutating manifest. Returns the new manifest and
the dependency files unlinked. -/
def purgeDeps (cfg : Config) :
    List Dependency → Except Err (Config × List String)
  | [] => .ok (cfg, [])
  | dep :: rest =>
    if dep.dependency_type == "optional" then purgeDeps cfg rest
    else if someOtherDepends cfg.mods dep.project_id then purgeDeps cfg rest
    else
      -- main.py:696: config["mods"][dependency_info["project_id"]] — note the
      -- manifest is keyed by slug, so this subscription can raise KeyError
      match dget cfg.mods dep.project_id with
      | none => .error .keyError
      | some dependency => do
        let pf ← pick_primary_file dependency.version.files
        let cfg' : Config := { cfg with mods := ddel cfg.mods dep.project_id }
        let (cfg'', files) ← purgeDeps cfg' rest
        Except.ok (cfg'', pf.filename :: files)

/-- The per-argument uninstall loop (main.py:671-713). `pathExists`/`pathName`
model the `Path(mod).exists()` / `Path(mod).name` normalisation. Returns the
final manifest and the unlinked filenames (`unlink(missing_ok=True)` with a
caught `OSError`, so unlinking never fails the run). -/
def uninstallLoop (identifiers : List (String × List String))
    (flat : List String) (pathExists : String → Bool)
    (pathName : String → String) (purge : Bool) :
    Config → List String → Except Err (Config × List String)
  | cfg, [] => .ok (cfg, [])
  | cfg, m :: rest =>
    let m := if pathExists m then pathName m else m
    if !(flat.contains m) then
      uninstallLoop identifiers flat pathExists pathName purge cfg rest  -- "not installed"
    else
      let key :=
        match identifiers.find? (fun kv => kv.2.contains m) with
        | some kv => kv.1
        | none => m   -- unreachable: m ∈ flat
      match dget cfg.mods key with
      | none => .error .keyError   -- main.py:682: config["mods"][mod]
      | some mod_info => do
        let (cfg1, purged) ←
          if purge then purgeDeps cfg mod_info.version.dependencies
          else Except.ok (cfg, [])
        let pf ← pick_primary_file mod_info.version.files
        let cfg2 : Config := { cfg1 with mods := ddel cfg1.mods key }
        let (cfg3, files) ← uninstallLoop identifiers flat pathExists pathName purge cfg2 rest
        Except.ok (cfg3, purged ++ pf.filename :: files)

/-- The uninstall command's manifest effect (main.py:648-716), excluding the
final save (modelled by `save_config`). -/
def uninstall_resolve (config : Config) (pathExists : String → Bool)
    (pathName : String → String) (mods : List String) (purge : Bool) :
    Except Err (Config × List String) := do
  let ids ← modIdentifiers config.mods
  let flat := (ids.map (fun kv => kv.2)).flatten
  uninstallLoop ids flat pathExists pathName purge config mods

/-! ### Concrete fixtures used by the claims' theorems and witnesses -/

def mkVersion (vid pid vt : String) (date : Nat) (gvs ldrs : List String)
    (deps : List Dependency) (files : List ModFile) : Version :=
  ⟨vid, pid, vid, vid, vt, date, gvs, ldrs, deps, files⟩

def mkProject (pid slug title : String) : Project :=
  ⟨pid, slug, title, "required"⟩

def noInteractive : String → Option Project := fun _ => none

/-- C1: installed X pins dependency P to v1; P itself installed at v1;
installing Y whose version pins P to v2. -/
def projP : Project := mkProject "PP" "pp" "P"
def projX : Project := mkProject "PX" "px" "X"
def projY : Project := mkProject "PY" "py" "Y"
def verPv1 : Version := mkVersion "v1" "PP" "release" 50 ["1.20"] ["fabric"] [] []
def verPv2 : Version := mkVersion "v2" "PP" "release" 60 ["1.20"] ["fabric"] [] []
def verX : Version :=
  mkVersion "vx" "PX" "release" 40 ["1.20"] ["fabric"] [⟨"PP", some "v1", "required"⟩] []
def verY : Version :=
  mkVersion "vy" "PY" "release" 70 ["1.20"] ["fabric"] [⟨"PP", some "v2", "required"⟩] []

def cfg1 : Config :=
  ⟨"fabric", "1.20", [("px", ⟨projX, verX⟩), ("pp", ⟨projP, verPv1⟩)]⟩

def api1 : Catalog where
  getProject := fun s =>
    if s == "py" || s == "PY" then some projY
    else if s == "pp" || s == "PP" then some projP
    else if s == "px" || s == "PX" then some projX
    else none
  interactive := noInteractive
  versionsRaw := fun pid => if pid == "PY" then [verY] else []
  getVersionById := fun pid vid =>
    if pid == "PP" && vid == "v2" then some verPv2
    else if pid == "PP" && vid == "v1" then some verPv1
    else none

/-- C2 counterexample: two fresh seeds X2 and Y2 both pin dependency Z2. -/
def projX2 : Project := mkProject "PX2" "mx2" "X2"
def projY2 : Project := mkProject "PY2" "my2" "Y2"
def projZ2 : Project := mkProject "PZ2" "mz2" "Z2"
def verZ2 : Version := mkVersion "vz2" "PZ2" "release" 10 ["1.20"] ["fabric"] [] []
def verX2 : Version :=
  mkVersion "vx2" "PX2" "release" 20 ["1.20"] ["fabric"] [⟨"PZ2", some "vz2", "required"⟩] []
def verY2 : Version :=
  mkVersion "vy2" "PY2" "release" 30 ["1.20"] ["fabric"] [⟨"PZ2", some "vz2", "required"⟩] []

def cfg2 : Config := ⟨"fabric", "1.20", []⟩

def api2 : Catalog where
  getProject := fun s =>
    if s == "mx2" || s == "PX2" then some projX2
    else if s == "my2" || s == "PY2" then some projY2
    else if s == "mz2" || s == "PZ2" then some projZ2
    else none
  interactive := noInteractive
  versionsRaw := fun pid =>
    if pid == "PX2" then [verX2] else if pid == "PY2" then [verY2] else []
  getVersionById := fun pid vid =>
    if pid == "PZ2" && vid == "vz2" then some verZ2 else none

/-- C2 amended: the cyclic dependency graph A→B→A. -/
def projA2 : Project := mkProject "PA2" "ma2" "A2"
def projB2 : Project := mkProject "PB2" "mb2" "B2"
def verA2 : Version :=
  mkVersion "va2" "PA2" "release" 10 ["1.20"] ["fabric"] [⟨"PB2", some "vb2", "required"⟩] []
def verB2 : Version :=
  mkVersion "vb2" "PB2" "release" 11 ["1.20"] ["fabric"] [⟨"PA2", some "va2", "required"⟩] []

def api2c : Catalog where
  getProject := fun s =>
    if s == "ma2" || s == "PA2" then some projA2
    else if s == "mb2" || s == "PB2" then some projB2
    else none
  interactive := noInteractive
  versionsRaw := fun pid => if pid == "PA2" then [verA2] else []
  getVersionById := fun pid vid =>
    if pid == "PB2" && vid == "vb2" then some verB2
    else if pid == "PA2" && vid == "va2" then some verA2
    else none

/-- C3: installed X3 required-depends on Y3; Y3 installed; nothing else
depends on Y3; uninstall X3 with purge. -/
def fileX3 : ModFile := ⟨"x3.jar", "u/x3", true, 1⟩
def fileY3 : ModFile := ⟨"y3.jar", "u/y3", true, 2⟩
def projX3 : Project := mkProject "PX3" "mod-x3" "X3"
def projY3 : Project := mkProject "PY3" "mod-y3" "Y3"
def verY3 : Version := mkVersion "vy3" "PY3" "release" 5 ["1.20"] ["fabric"] [] [fileY3]
def verX3 : Version :=
  mkVersion "vx3" "PX3" "release" 6 ["1.20"] ["fabric"] [⟨"PY3", some "vy3", "required"⟩] [fileX3]

def cfg3 : Config :=
  ⟨"fabric", "1.20", [("mod-x3", ⟨projX3, verX3⟩), ("mod-y3", ⟨projY3, verY3⟩)]⟩

def noPath : String → Bool := fun _ => false

/-- C5 counterexample: seed A5's required dependency names a project the
catalog cannot serve; a second healthy seed B5 follows. -/
def projA5 : Project := mkProject "PA5" "ma5" "A5"
def projB5 : Project := mkProject "PB5" "mb5" "B5"
def verA5 : Version :=
  mkVersion "va5" "PA5" "release" 10 ["1.20"] ["fabric"] [⟨"PMISS", none, "required"⟩] []
def verB5 : Version := mkVersion "vb5" "PB5" "release" 11 ["1.20"] ["fabric"] [] []

def cfg5 : Config := ⟨"fabric", "1.20", []⟩

def api5 : Catalog where
  getProject := fun s =>
    if s == "ma5" || s == "PA5" then some projA5
    else if s == "mb5" || s == "PB5" then some projB5
    else none
  interactive := noInteractive
  versionsRaw := fun pid =>
    if pid == "PA5" then [verA5] else if pid == "PB5" then [verB5] else []
  getVersionById := fun _ _ => none

/-- C5 amended: the dependency's project D5 exists but has no version
compatible with the configured platform. -/
def projD5 : Project := mkProject "PD5" "md5" "D5"
def verA5b : Version :=
  mkVersion "va5" "PA5" "release" 10 ["1.20"] ["fabric"] [⟨"PD5", none, "required"⟩] []

def api5b : Catalog where
  getProject := fun s =>
    if s == "ma5" || s == "PA5" then some projA5
    else if s == "mb5" || s == "PB5" then some projB5
    else if s == "md5" || s == "PD5" then some projD5
    else none
  interactive := noInteractive
  versionsRaw := fun pid =>
    if pid == "PA5" then [verA5b] else if pid == "PB5" then [verB5] else []
  getVersionById := fun _ _ => none

/-- C6: seed G6's selected version lacks the configured game version but has
the loader; seed L6's selected version lacks the configured loader. -/
def projG6 : Project := mkProject "PG6" "mg6" "G6"
def projL6 : Project := mkProject "PL6" "ml6" "L6"
def verG6 : Version := mkVersion "vg6" "PG6" "release" 10 ["1.19"] ["fabric"] [] []
def verL6 : Version := mkVersion "vl6" "PL6" "release" 11 ["1.20"] ["forge"] [] []

def cfg6 : Config := ⟨"fabric", "1.20", []⟩

def api6 : Catalog where
  getProject := fun s =>
    if s == "mg6" || s == "PG6" then some projG6
    else if s == "ml6" || s == "PL6" then some projL6
    else none
  interactive := noInteractive
  versionsRaw := fun _ => []
  getVersionById := fun pid vid =>
    if pid == "PG6" && vid == "vg6" then some verG6
    else if pid == "PL6" && vid == "vl6" then some verL6
    else none

/-- C7: canned responses. -/
def resp429 : HttpResp := ⟨429, 0⟩
def resp200 : HttpResp := ⟨200, 7⟩

/-- C4 witness fixture: only pre-releases exist. -/
def verBeta10 : Version := mkVersion "vb" "PQ" "beta" 10 ["1.20"] ["fabric"] [] []
def verAlpha20 : Version := mkVersion "va" "PQ" "alpha" 20 ["1.20"] ["fabric"] [] []

/-- C8 witness fixture. -/
def file8 : ModFile := ⟨"m8.jar", "u/m8", true, 999⟩
def ver8 : Version := mkVersion "v8" "P8" "release" 10 ["1.20"] ["fabric"] [] [file8]
def env8 : DlEnv := ⟨fun _ => [1, 2, 3], fun bytes => bytes.length, fun _ => false⟩
def st8 : DlState := ⟨[], []⟩

/-- C9: the manifest lives in a parent directory of the working directory. -/
def projA9 : Project := mkProject "PA9" "ma9" "A9"
def verA9 : Version := mkVersion "va9" "PA9" "release" 10 ["1.20"] ["fabric"] [] []
def cfg9 : Config := ⟨"fabric", "1.20", []⟩
def serverDir9 : FsPath := ["home", "user", "server"]
def cwd9 : FsPath := ["home", "user", "server", "sub"]
def fs9 : FS := ⟨[(serverDir9 ++ [".modman.json"], cfg9)]⟩

def api9 : Catalog where
  getProject := fun s => if s == "ma9" || s == "PA9" then some projA9 else none
  interactive := noInteractive
  versionsRaw := fun pid => if pid == "PA9" then [verA9] else []
  getVersionById := fun _ _ => none

/-- C10: a manifest entry whose stored version has an empty files list. -/
def projE10 : Project := mkProject "PE10" "mod-e10" "E10"
def verE10 : Version := mkVersion "ve10" "PE10" "release" 10 ["1.20"] ["fabric"] [] []
def cfg10 : Config := ⟨"fabric", "1.20", [("mod-e10", ⟨projE10, verE10⟩)]⟩
def file10 : ModFile := ⟨"f10.jar", "u/f10", false, 3⟩

/-! ### Helper lemmas -/

theorem dget_ddel {α : Type} (d : List (String × α)) (k : String) :
    dget (ddel d k) k = none := by
  have hfind : (ddel d k).find? (fun kv => kv.1 == k) = none := by
    rw [List.find?_eq_none]
    intro x hx
    have hmem := List.of_mem_filter hx
    simp only [bne_iff_ne, ne_eq] at hmem
    simp [hmem]
  simp [dget, hfind]

theorem apiGetFuel_429_replicate (n : Nat) :
    apiGetFuel (n + 1) (List.replicate n (some resp429) ++ [some resp200]) =
      .ok (resp200, n + 1) := by
  induction n with
  | zero => rfl
  | succ m ih =>
    have step : apiGetFuel (m + 1 + 1)
        (List.replicate (m + 1) (some resp429) ++ [some resp200]) =
        match apiGetFuel (m + 1) (List.replicate m (some resp429) ++ [some resp200]) with
        | .ok (r', n) => .ok (r', n + 1)
        | .error e => .error e := rfl
    rw [step, ih]

/-! ### Claims -/

/-- C1: the claim says that installing a mod whose dependency is project P at
version v2, while installed project X pins P to v1, records a conflict
{P, X, v2, v1} and still plans P@v2. On the manifest where X pins P@v1 (and
P is installed at v1), installing Y (which pins P@v2) plans P@v2 but records
*no* conflict: `find_dependency_version_conflicts` skips every manifest
entry whose own project id differs from the queried id (so it can only ever
see self-dependencies), and install_mod moreover queries it with the
*depending* mod's id and version id rather than the dependency's. -/
theorem install_conflict_not_recorded :
    (install_resolve api1 cfg1 ["py"] false false).toOption.map
      (fun r => (r.conflicts, r.queue.map (fun i => (i.mod.id, i.version.id)))) =
      some ([], [("PY", "vy"), ("PP", "v2")]) ∧
    find_dependency_version_conflicts "PP" "v2" cfg1 = [] ∧
    find_dependency_version_conflicts "PY" "vy" cfg1 = [] := by decide

/-- C2 counterexample: the claim says each project id is enqueued at most
once per run. With two seed mods X2 and Y2 that both pin dependency Z2, the
expansion enqueues Z2 twice (there is no dedup of the queue). -/
theorem install_shared_dep_enqueued_twice :
    (install_resolve api2 cfg2 ["mx2", "my2"] false false).toOption.map
      (fun r => (r.queue.map (fun i => i.mod.id)).count "PZ2") = some 2 ∧
    ¬ (2 ≤ 1) := by decide

/-- C2 amended: dependency expansion always terminates — it is a single pass
over the seed list's direct dependencies, never recursing into dependencies'
dependencies — and in the cyclic graph A2→B2→A2 seeded with A2 each of
{A2, B2} is enqueued exactly once; in general, however, a project can be
enqueued more than once (two seeds pinning the same dependency enqueue it
twice), and transitive dependencies are never enqueued at all. -/
theorem install_expansion_single_pass :
    (install_resolve api2c cfg2 ["ma2"] false false).toOption.map
      (fun r => r.queue.map (fun i => i.mod.id)) = some ["PA2", "PB2"] ∧
    (install_resolve api2 cfg2 ["mx2", "my2"] false false).toOption.map
      (fun r => (r.queue.map (fun i => i.mod.id)).count "PZ2") = some 2 := by decide

/-- C3: the claim says purge-uninstalling X3 (which required-depends on Y3,
with no other installed project depending on Y3) removes both X3 and Y3. The
code removes only X3 and retains Y3: the "make sure nothing else depends on
it" scan iterates over *all* manifest entries including X3 itself — whose
dependency list of course names Y3 — so the cascade branch can never fire. -/
theorem uninstall_purge_retains_orphan_dep :
    (uninstall_resolve cfg3 noPath id ["mod-x3"] true).toOption.map
      (fun r => (dkeys r.1.mods, r.2)) = some (["mod-y3"], ["x3.jar"]) := by decide

/-- C4: with requireRelease set, if filtering the candidates to tier
`release` empties the set, `get_versions` reverts to the pre-filter
candidate set (the platform-filtered list), returns it sorted most recent
first — so its head is a maximally recent candidate — and in particular is
nonempty whenever the pre-filter set is: it never returns the empty list
solely because only pre-releases exist. -/
theorem get_versions_release_fallback (raw : List Version) (loader gv : Option String)
    (h : (platformFiltered raw loader gv).filter
      (fun v => v.version_type == "release") = []) :
    get_versions raw loader gv true = sortDateDesc (platformFiltered raw loader gv) ∧
    (platformFiltered raw loader gv ≠ [] → get_versions raw loader gv true ≠ []) ∧
    (∀ v, (get_versions raw loader gv true).head? = some v →
      ∀ w ∈ platformFiltered raw loader gv, w.date_published ≤ v.date_published) := by
  have hgv : get_versions raw loader gv true =
      sortDateDesc (platformFiltered raw loader gv) := by
    unfold get_versions
    simp [h]
  refine ⟨hgv, ?_, ?_⟩
  · intro hne hcontra
    apply hne
    have hperm := List.perm_insertionSort dateGe (platformFiltered raw loader gv)
    rw [hgv] at hcontra
    rw [sortDateDesc] at hcontra
    rw [hcontra] at hperm
    exact hperm.symm.eq_nil
  · intro v hv w hw
    rw [hgv] at hv
    have hsorted : List.Sorted dateGe (sortDateDesc (platformFiltered raw loader gv)) :=
      List.sorted_insertionSort dateGe _
    have hperm := List.perm_insertionSort dateGe (platformFiltered raw loader gv)
    have hwmem : w ∈ sortDateDesc (platformFiltered raw loader gv) :=
      hperm.mem_iff.mpr hw
    cases hsd : sortDateDesc (platformFiltered raw loader gv) with
    | nil => rw [hsd] at hwmem; exact absurd hwmem (List.not_mem_nil w)
    | cons a t =>
      rw [hsd] at hv
      have hav : a = v := by simpa using hv
      rw [hsd] at hwmem hsorted
      rcases List.mem_cons.mp hwmem with hwa | hwt
      · rw [hav] at hwa; rw [hwa]
      · have hrel : dateGe a w := (List.sorted_cons.mp hsorted).1 w hwt
        rw [← hav]
        exact hrel

/-- C4 witness: candidates `[{tier:beta,t:10},{tier:alpha,t:20}]` with
requireRelease contain no release, the fallback applies, and the selector
returns the alpha at t=20 first. -/
theorem get_versions_release_fallback_witness :
    (platformFiltered [verBeta10, verAlpha20] none none).filter
      (fun v => v.version_type == "release") = [] ∧
    get_versions [verBeta10, verAlpha20] none none true =
      sortDateDesc (platformFiltered [verBeta10, verAlpha20] none none) ∧
    (get_versions [verBeta10, verAlpha20] none none true).head? = some verAlpha20 :=
  ⟨by decide, (get_versions_release_fallback _ none none (by decide)).1, by decide⟩

/-- C5 counterexample: the claim says a required dependency whose project
cannot be obtained is dropped without aborting the rest of the run. When
seed A5's required dependency names a project the catalog 404s on, the
`api.get_project` call inside the expansion loop is uncaught and the whole
run errors — the healthy second seed B5 is never installed. -/
theorem install_dep_project_fetch_aborts_run :
    install_resolve api5 cfg5 ["ma5", "mb5"] false false = .error .httpStatus := by decide

/-- C5 amended: only the "no compatible version for an *unpinned* required
dependency" failure is dropped-and-continue: the dependency is reported
(critical log) and omitted while the remaining seeds are still processed and
installed; a failed fetch of the dependency's project (or of a pinned
dependency version) instead aborts the entire run. -/
theorem install_dep_no_versions_dropped :
    (install_resolve api5b cfg5 ["ma5", "mb5"] false false).toOption.map
      (fun r => (r.queue.map (fun i => i.mod.id), r.warnings, dkeys r.config.mods)) =
      some (["PA5", "PB5"], [.depNoVersions "D5"], ["ma5", "mb5"]) := by decide

/-- C6 counterexample: the claim says a seed whose version misses the
configured loader is warned about but still enqueued. Seed L6's pinned
version supports game version 1.20 but only loader `forge`; under a `fabric`
server it is warned about and *skipped* — the queue stays empty. -/
theorem install_loader_mismatch_not_enqueued :
    (install_resolve api6 cfg6 ["ml6==vl6"] false false).toOption.map
      (fun r => (r.queue, r.warnings)) =
      some ([], [.loaderMismatch "L6"]) := by decide

/-- C6 amended: at the seed phase a version missing the configured target
game version is warned about non-fatally and still enqueued, but a version
missing the configured loader is warned about and skipped (not enqueued). -/
theorem install_platform_warnings :
    (install_resolve api6 cfg6 ["mg6==vg6", "ml6==vl6"] false false).toOption.map
      (fun r => (r.queue.map (fun i => i.mod.id), r.warnings)) =
      some (["PG6"], [.gameVersionMismatch "G6", .loaderMismatch "L6"]) := by decide

/-- C7 counterexample: the claim bounds 429-caused re-issues of a request by
one. With responses 429, 429, 200 the client issues the request three times
(two re-issues) before returning the 200 — the retry is recursive, not
single. -/
theorem apiGet_429_not_single_retry :
    apiGet [some resp429, some resp429, some resp200] = .ok (resp200, 3) ∧
    ¬ (3 - 1 ≤ 1) := by decide

/-- C7 amended: a 429 status is never treated as an error; the client
immediately re-issues the same request, recursively and without any bound,
until a non-429 response arrives: after n consecutive 429 responses followed
by a 200, the request has been issued n+1 times and the 200 is returned. -/
theorem apiGet_429_unbounded (n : Nat) :
    apiGet (List.replicate n (some resp429) ++ [some resp200]) = .ok (resp200, n + 1) := by
  have hl : (List.replicate n (some resp429) ++ [some resp200]).length = n + 1 := by
    simp
  rw [apiGet, hl]
  exact apiGetFuel_429_replicate n

/-- C8: whenever the bytes that end up in the cache for the version's primary
file hash to a value different from the file's declared hash, `download_mod`
raises ("File hash does not match"), leaves the destination directory
untouched (the artifact is never copied), and deletes the corrupt cached
copy. -/
theorem download_mod_integrity (env : DlEnv) (st : DlState) (version : Version)
    (file : ModFile) (hpf : pick_primary_file version.files = .ok file)
    (hmm : env.hashOf (dl_bytes env st file) ≠ file.sha512) :
    (download_mod env st version).2 = .error .runtimeError ∧
    (download_mod env st version).1.destDir = st.destDir ∧
    dget (download_mod env st version).1.cacheDir file.filename = none := by
  have hb : (env.hashOf (dl_bytes env st file) != file.sha512) = true :=
    bne_iff_ne.mpr hmm
  have hdl : download_mod env st version =
      (⟨ddel (dset st.cacheDir file.filename (dl_bytes env st file)) file.filename,
        st.destDir⟩, .error .runtimeError) := by
    unfold download_mod
    rw [hpf]
    simp [hb]
  rw [hdl]
  exact ⟨rfl, rfl, dget_ddel _ _⟩

/-- C8 witness: a concrete download whose cached bytes hash to 3 against a
declared hash of 999 errors, copies nothing, and purges the cache entry. -/
theorem download_mod_integrity_witness :
    env8.hashOf (dl_bytes env8 st8 file8) ≠ file8.sha512 ∧
    ((download_mod env8 st8 ver8).2 = .error .runtimeError ∧
     (download_mod env8 st8 ver8).1.destDir = st8.destDir ∧
     dget (download_mod env8 st8 ver8).1.cacheDir file8.filename = none) :=
  ⟨by decide, download_mod_integrity env8 st8 ver8 file8 (by decide) (by decide)⟩

/-- C9: the claim says the manifest file loaded at command start (possibly
found in a parent directory) is the same file rewritten at the end. With the
manifest at home/user/server/.modman.json and the command run from
home/user/server/sub, `load_config` loads the parent's file but the save
writes a *new* `.modman.json` into the working directory: the loaded file
still holds the old contents (no "ma9" entry) while the run's final state
lands in the fresh cwd file. -/
theorem install_save_ignores_loaded_path :
    findManifestDir fs9 cwd9 = some serverDir9 ∧
    serverDir9 ≠ cwd9 ∧
    (full_install fs9 cwd9 api9 ["ma9"] false false).toOption.map
      (fun p => (fsGet p.1 (serverDir9 ++ [".modman.json"]),
        (fsGet p.1 (cwd9 ++ [".modman.json"])).map (fun c => dkeys c.mods))) =
      some (some cfg9, some ["ma9"]) ∧
    dkeys cfg9.mods = [] := by decide

/-- C10: `pick_primary_file` is partial: on an empty files list it raises
IndexError (it never returns a NotFound-style value — any nonempty list
yields a file), and the uninstall command, which calls it on every manifest
entry while building its identifier table, dies with that IndexError as soon
as some stored version has no files. -/
theorem pick_primary_file_partial :
    pick_primary_file ([] : List ModFile) = .error .indexError ∧
    (∀ files : List ModFile, files ≠ [] → ∃ f, pick_primary_file files = .ok f) ∧
    uninstall_resolve cfg10 noPath id ["mod-e10"] false = .error .indexError := by
  refine ⟨rfl, ?_, by decide⟩
  intro files hne
  cases hfind : files.find? (fun x => x.primary) with
  | some g => exact ⟨g, by simp [pick_primary_file, hfind]⟩
  | none =>
    match files, hne with
    | f :: rest, _ => exact ⟨f, by simp [pick_primary_file, hfind]⟩

/-- C10 witness: a one-element files list always yields a file. -/
theorem pick_primary_file_partial_witness :
    ∃ f, pick_primary_file [file10] = .ok f :=
  pick_primary_file_partial.2.1 [file10] (by decide)

end Modman
